import Mathlib

/-!
# Verification of the `assembler` instruction stream and encoder

A shallow embedding of the core of the repository: the `InstructionStream`
(label resolution, pending 8-bit / 32-bit displacement patches, `finish`,
alignment emission) from `src/workspace/assembler/src/InstructionStream.rs`,
the mk2 `Register` / `MemoryOrRegister` REX and ModR/M emission from
`src/workspace/assembler/src/mk2/mnemonic_parameter_types/registers/Register.rs`,
and the 32-bit memory-offset operand from
`src/assembler/src/mnemonic_parameter_types/memory_offsets/MemoryOffset32Bit.rs`.

Machine integers are embedded as `Nat` (unsigned, with explicit `% 256`,
`% 2^32`, ... where the Rust code's fixed-width arithmetic wraps) and as
`Int` where the Rust code computes signed displacements.

The repository's `ByteEmitter.rs`, `LabelledLocations.rs` and the generated
mnemonic wrappers (`InstructionStream.instructions.rs`) are not part of the
disclosed sources; the definitions for those are modelled from the
specification (each such definition carries a doc comment starting with
`Modelled from the spec:`).  Everything else is translated directly from the
Rust sources named above.
-/

namespace Assembler

/-- A label: an opaque numeric id (`Label.rs` wraps a `usize`). -/
abbrev Label := Nat

/-- An instruction pointer: a cursor offset into the emitted byte stream.
The Rust code uses raw addresses; positions are relative to the region base
here, which only shifts every pointer by the constant base address. -/
abbrev InstructionPointer := Nat

/-- Modelled from the spec: `ByteEmitter.rs` is not under the disclosed
sources.  §3/§4.2 of the spec: the emitter holds (base, capacity, cursor,
bookmark); the cursor is the offset of the next byte to write and the
bookmark a saved cursor for rollback.  The byte stream is embedded as the
list of bytes written so far, so the cursor is `bytes.length`; a cursor
rollback (`reset_to_bookmark`) truncates the list, since bytes at or past
the cursor are not part of the emitted stream. -/
structure ByteEmitter where
  bytes : List Nat
  bookmark : Nat
  deriving DecidableEq, Repr

namespace ByteEmitter

/-- The cursor (the Rust `instruction_pointer` field): offset of the next
byte to write. -/
def instruction_pointer (e : ByteEmitter) : InstructionPointer :=
  e.bytes.length

/-- Modelled from the spec (§4.2): `emit_u8(v)` writes `v` at the cursor and
advances the cursor by 1. -/
def emit_u8 (e : ByteEmitter) (v : Nat) : ByteEmitter :=
  { e with bytes := e.bytes ++ [v % 256] }

/-- Little-endian byte decomposition of `v` into `width` bytes. -/
def leBytes : Nat → Nat → List Nat
  | 0, _ => []
  | width + 1, v => v % 256 :: leBytes width (v / 256)

/-- Modelled from the spec (§4.2): `emit_u16(v)` writes `v` at the cursor in
little-endian and advances the cursor by 2. -/
def emit_u16 (e : ByteEmitter) (v : Nat) : ByteEmitter :=
  { e with bytes := e.bytes ++ leBytes 2 v }

/-- Modelled from the spec (§4.2): `emit_u32(v)` writes `v` at the cursor in
little-endian and advances the cursor by 4. -/
def emit_u32 (e : ByteEmitter) (v : Nat) : ByteEmitter :=
  { e with bytes := e.bytes ++ leBytes 4 v }

/-- Modelled from the spec (§4.2): `emit_u64(v)` writes `v` at the cursor in
little-endian and advances the cursor by 8. -/
def emit_u64 (e : ByteEmitter) (v : Nat) : ByteEmitter :=
  { e with bytes := e.bytes ++ leBytes 8 v }

/-- Modelled from the spec (§4.2): `emit_u128(v)` writes `v` at the cursor in
little-endian and advances the cursor by 16. -/
def emit_u128 (e : ByteEmitter) (v : Nat) : ByteEmitter :=
  { e with bytes := e.bytes ++ leBytes 16 v }

/-- Modelled from the spec (§4.2): `emit_bytes(slice)` bulk-copies and
advances the cursor by the slice length.  The `% 256` records that the Rust
slice elements are `u8`. -/
def emit_bytes (e : ByteEmitter) (l : List Nat) : ByteEmitter :=
  { e with bytes := e.bytes ++ l.map (· % 256) }

/-- Modelled from the spec (§4.2): `emit_u8_if_not_zero(v)` writes `v` only
if `v ≠ 0` (used for REX emission). -/
def emit_u8_if_not_zero (e : ByteEmitter) (v : Nat) : ByteEmitter :=
  if v = 0 then e else e.emit_u8 v

/-- Modelled from the spec (§4.2): `skip_u8()` advances the cursor without
writing, reserving a patch slot.  The reserved slot's content is
indeterminate in the Rust code (raw memory); it is modelled as a zero
placeholder byte. -/
def skip_u8 (e : ByteEmitter) : ByteEmitter :=
  { e with bytes := e.bytes ++ [0] }

/-- Modelled from the spec (§4.2): `skip_u32()` advances the cursor by 4
without writing (four indeterminate placeholder bytes). -/
def skip_u32 (e : ByteEmitter) : ByteEmitter :=
  { e with bytes := e.bytes ++ [0, 0, 0, 0] }

/-- Modelled from the spec (§4.2): `store_bookmark()` saves the cursor. -/
def store_bookmark (e : ByteEmitter) : ByteEmitter :=
  { e with bookmark := e.bytes.length }

/-- Modelled from the spec (§4.2): `reset_to_bookmark()` restores the cursor
to the saved bookmark (truncating the emitted stream back to it). -/
def reset_to_bookmark (e : ByteEmitter) : ByteEmitter :=
  { e with bytes := e.bytes.take e.bookmark }

/-- Overwrite the byte at offset `site` with `v` (the patching primitive
underlying `patch_rel8` / `patch_rel32`). -/
def writeAt (e : ByteEmitter) (site : InstructionPointer) (v : Nat) : ByteEmitter :=
  { e with bytes := e.bytes.set site (v % 256) }

/-- Modelled from the spec (§4.2): `patch_rel8(site, target)` (the Rust
`insert_8_bit_effective_address_displacement`) writes `target - (site + 1)`
as a signed 8-bit value at `site` and returns failure, writing nothing, if
the displacement is outside `[-128, 127]`. -/
def insert_8_bit_effective_address_displacement (e : ByteEmitter)
    (site target : InstructionPointer) : Except Unit ByteEmitter :=
  let displacement : Int := (target : Int) - ((site : Int) + 1)
  if displacement < -128 ∨ 127 < displacement then
    .error ()
  else
    .ok (e.writeAt site (displacement.emod 256).toNat)

/-- Modelled from the spec (§4.2): `patch_rel32(site, target)` (the Rust
`insert_32_bit_effective_address_displacement`) writes `target - (site + 4)`
as a signed 32-bit value at `site`; a displacement outside
`[-2^31, 2^31)` is fatal (a debug-build panic), modelled as `.error`. -/
def insert_32_bit_effective_address_displacement (e : ByteEmitter)
    (site target : InstructionPointer) : Except Unit ByteEmitter :=
  let displacement : Int := (target : Int) - ((site : Int) + 4)
  if displacement < -(2 ^ 31) ∨ 2 ^ 31 ≤ displacement then
    .error ()
  else
    let v := (displacement.emod (2 ^ 32)).toNat
    .ok ((((e.writeAt site v).writeAt (site + 1) (v / 2 ^ 8)).writeAt
        (site + 2) (v / 2 ^ 16)).writeAt (site + 3) (v / 2 ^ 24))

end ByteEmitter

/-- Modelled from the spec: `LabelledLocations.rs` is not under the
disclosed sources.  §3 of the spec: a mapping `Label → Option cursor`,
queried by `potential_target_instruction_pointer` (an unattached label has
no valid target).  Embedded as an association list. -/
abbrev LabelledLocations := List (Label × InstructionPointer)

/-- Modelled from the spec: look up the bound position of a label
(`LabelledLocations::potential_target_instruction_pointer`); `none` plays
the role of the Rust sentinel for which `is_valid()` is false. -/
def LabelledLocations.potential_target_instruction_pointer
    (locs : LabelledLocations) (label : Label) : Option InstructionPointer :=
  (locs.find? (fun p => p.1 = label)).map (·.2)

/-- Result of emitting an 8-bit `JMP` displacement (the Rust
`ShortJmpResult = Result<(), ()>`): `Err(())` reports a short-jump
displacement overflow. -/
inductive ShortJmpResult where
  | ok
  | shortOverflow
  deriving DecidableEq, Repr

/-- The instruction stream state (`InstructionStream.rs`): the byte emitter,
the labelled locations, and the two pending-patch queues
(`instruction_pointers_to_replace_labels_with_8_bit_displacements` and
`..._32_bit_displacements`).  The borrowed memory-map handle carries no
state relevant to the embedded operations and is omitted. -/
structure InstructionStream where
  byte_emitter : ByteEmitter
  labelled_locations : LabelledLocations
  pending8 : List (Label × InstructionPointer)
  pending32 : List (Label × InstructionPointer)
  deriving DecidableEq, Repr

namespace InstructionStream

/-- `InstructionStream::instruction_pointer()`: the current cursor. -/
def instruction_pointer (s : InstructionStream) : InstructionPointer :=
  s.byte_emitter.instruction_pointer

/-- A panic raised by a `debug_assert!` during `finish()` (or inside a
32-bit patch).  The constructors record which assertion message fired. -/
inductive FinishPanic where
  /-- `debug_assert!(target_instruction_pointer.is_valid(), "unresolved label '{:?}'", label)` -/
  | unresolvedLabel (label : Label)
  /-- `debug_assert!(result.is_err(), "8-bit JMP for label '{:?}' was too far", label)`:
  fires when the 8-bit patch result is `Ok`. -/
  | eightBitJmpNotErr (label : Label)
  /-- the fatal debug check inside the 32-bit patch (displacement beyond 32 bits). -/
  | thirtyTwoBitDisplacementTooFar (label : Label)
  deriving DecidableEq, Repr

/-- The first loop of `InstructionStream::finish()` (lines 62–68), with
every `debug_assert!` modelled as a panic (`.error`), i.e. a debug build:
for each pending `(label, site)` in the 8-bit queue, look up the bound
position (panic if the label is unbound), apply the 8-bit patch, and then
`debug_assert!(result.is_err(), "8-bit JMP ... was too far")` — which, as
written in the source, panics when the patch SUCCEEDED and lets an
overflowed patch pass. -/
def finishProcess8 (locs : LabelledLocations) :
    List (Label × InstructionPointer) → ByteEmitter → Except FinishPanic ByteEmitter
  | [], e => .ok e
  | (label, site) :: rest, e =>
    match locs.potential_target_instruction_pointer label with
    | none => .error (.unresolvedLabel label)
    | some target =>
      match e.insert_8_bit_effective_address_displacement site target with
      | .ok _ => .error (.eightBitJmpNotErr label)
      | .error () => finishProcess8 locs rest e

/-- The second loop of `InstructionStream::finish()` (lines 70–76), in a
debug build: for each pending `(label, site)` in the 32-bit queue, look up
the bound position (panic if the label is unbound) and apply the 32-bit
patch (which is fatal on 32-bit displacement overflow). -/
def finishProcess32 (locs : LabelledLocations) :
    List (Label × InstructionPointer) → ByteEmitter → Except FinishPanic ByteEmitter
  | [], e => .ok e
  | (label, site) :: rest, e =>
    match locs.potential_target_instruction_pointer label with
    | none => .error (.unresolvedLabel label)
    | some target =>
      match e.insert_32_bit_effective_address_displacement site target with
      | .error () => .error (.thirtyTwoBitDisplacementTooFar label)
      | .ok e' => finishProcess32 locs rest e'

/-- `InstructionStream::finish()` in a debug build: drain the 8-bit queue,
then the 32-bit queue; a failing `debug_assert!` is a panic (`.error`).
The final `make_executable()` only flips memory protection and does not
change the byte stream. -/
def finishDebug (s : InstructionStream) : Except FinishPanic ByteEmitter :=
  match finishProcess8 s.labelled_locations s.pending8 s.byte_emitter with
  | .error p => .error p
  | .ok e => finishProcess32 s.labelled_locations s.pending32 e

/-- `InstructionStream::bookmark()` (lines 81–85). -/
def bookmark (s : InstructionStream) : InstructionStream :=
  { s with byte_emitter := s.byte_emitter.store_bookmark }

/-- `InstructionStream::displacement_label_8bit(label)` (lines 89–112): if
the label is bound, try the 8-bit patch at the current cursor, resetting to
the bookmark and reporting the overflow on failure; otherwise queue
`(label, cursor)` on the 8-bit pending queue and skip one byte. -/
def displacement_label_8bit (s : InstructionStream) (label : Label) :
    ShortJmpResult × InstructionStream :=
  match s.labelled_locations.potential_target_instruction_pointer label with
  | some target_instruction_pointer =>
    let insert_at_instruction_pointer := s.byte_emitter.instruction_pointer
    match s.byte_emitter.insert_8_bit_effective_address_displacement
        insert_at_instruction_pointer target_instruction_pointer with
    | .ok e' => (.ok, { s with byte_emitter := e' })
    | .error () => (.shortOverflow, { s with byte_emitter := s.byte_emitter.reset_to_bookmark })
  | none =>
    let ip := s.instruction_pointer
    (.ok, { s with
      pending8 := s.pending8 ++ [(label, ip)],
      byte_emitter := s.byte_emitter.skip_u8 })

/-- `InstructionStream::displacement_label_32bit(label)` (lines 118–132),
debug build: the inline 32-bit patch's overflow is a fatal debug panic. -/
def displacement_label_32bit (s : InstructionStream) (label : Label) :
    Except FinishPanic InstructionStream :=
  match s.labelled_locations.potential_target_instruction_pointer label with
  | some target_instruction_pointer =>
    let insert_at_instruction_pointer := s.byte_emitter.instruction_pointer
    match s.byte_emitter.insert_32_bit_effective_address_displacement
        insert_at_instruction_pointer target_instruction_pointer with
    | .ok e' => .ok { s with byte_emitter := e' }
    | .error () => .error (.thirtyTwoBitDisplacementTooFar label)
  | none =>
    let ip := s.instruction_pointer
    .ok { s with
      pending32 := s.pending32 ++ [(label, ip)],
      byte_emitter := s.byte_emitter.skip_u32 }

/-- `InstructionStream::create_label()` / `LabelledLocations::create_label()`:
a fresh unattached id.  Modelled from the spec (§4.4): ids are issued
sequentially, so a fresh id is one past the largest issued so far. -/
def create_label (s : InstructionStream) : Label × InstructionStream :=
  ((s.labelled_locations.map (·.1)).foldr max 0 + 1, s)

/-- `InstructionStream::attach_label(label)` (lines 160–164): bind the label
to the current cursor. -/
def attach_label (s : InstructionStream) (label : Label) : InstructionStream :=
  { s with labelled_locations := s.labelled_locations ++ [(label, s.instruction_pointer)] }

/-- `InstructionStream::emit_byte(byte)`. -/
def emit_byte (s : InstructionStream) (v : Nat) : InstructionStream :=
  { s with byte_emitter := s.byte_emitter.emit_u8 v }

/-- `InstructionStream::emit_word(word)`. -/
def emit_word (s : InstructionStream) (v : Nat) : InstructionStream :=
  { s with byte_emitter := s.byte_emitter.emit_u16 v }

/-- `InstructionStream::emit_double_word(double_word)`. -/
def emit_double_word (s : InstructionStream) (v : Nat) : InstructionStream :=
  { s with byte_emitter := s.byte_emitter.emit_u32 v }

/-- `InstructionStream::emit_quad_word(quad_word)`. -/
def emit_quad_word (s : InstructionStream) (v : Nat) : InstructionStream :=
  { s with byte_emitter := s.byte_emitter.emit_u64 v }

/-- `InstructionStream::emit_double_quad_word(double_quad_word)`. -/
def emit_double_quad_word (s : InstructionStream) (v : Nat) : InstructionStream :=
  { s with byte_emitter := s.byte_emitter.emit_u128 v }

/-- `InstructionStream::emit_bytes(bytes)`. -/
def emit_bytes (s : InstructionStream) (l : List Nat) : InstructionStream :=
  { s with byte_emitter := s.byte_emitter.emit_bytes l }

/-- `InstructionStream::opcode_1(opcode)`. -/
def opcode_1 (s : InstructionStream) (opcode : Nat) : InstructionStream :=
  { s with byte_emitter := s.byte_emitter.emit_u8 opcode }

/-- Modelled from the spec: the generated short-jump mnemonic wrapper
(`jmp_Label_1` in `InstructionStream.instructions.rs`, not under the
disclosed sources).  §4.4/§7 of the spec and the doc comment on
`InstructionStream` (line 11): the wrapper saves the pre-emission cursor as
the bookmark, emits the 1-byte `JMP rel8` opcode `0xEB`, then emits the
8-bit label displacement; on overflow the stream has been rolled back to
just before where the instruction started to be emitted. -/
def jmp_Label_1 (s : InstructionStream) (label : Label) :
    ShortJmpResult × InstructionStream :=
  ((s.bookmark).opcode_1 0xEB).displacement_label_8bit label

end InstructionStream

end Assembler
namespace Assembler

namespace InstructionStream

/-- The `NOP` opcode (`const NOP: u8 = 0x90` in `emit_alignment`). -/
def NOP : Nat := 0x90

/-- The `_ =>` arm of `emit_alignment` (lines 431–434):
`for _ in 0 .. n { self.emit_byte(0x90) }`. -/
def emitNopLoop (s : InstructionStream) : Nat → InstructionStream
  | 0 => s
  | n + 1 => emitNopLoop (s.emit_byte 0x90) n

/-- `InstructionStream::emit_alignment(alignment)` (lines 295–436),
translated arm by arm: `offset = instruction_pointer() % alignment`, then a
64-way match on `offset`.  The source spells each `emit_bytes` argument as a
literal `offset`-element array of `NOP`s, written here as
`List.replicate offset NOP`; the word/double-word/quad-word/double-quad-word
arms emit the literal constants of the source (all of whose little-endian
bytes are `0x90`).  Note that the arms for `offset` in `1 ..= 63` emit
`offset` bytes, while the default arm emits `alignment - offset` bytes. -/
def emit_alignment (s : InstructionStream) (alignment : Nat) : InstructionStream :=
  let offset := s.instruction_pointer % alignment
  match offset with
  | 0 => s
  | 1 => s.emit_byte 0x90
  | 2 => s.emit_word 0x9090
  | 3 => s.emit_bytes (List.replicate 3 NOP)
  | 4 => s.emit_double_word 0x90909090
  | 5 => s.emit_bytes (List.replicate 5 NOP)
  | 6 => s.emit_bytes (List.replicate 6 NOP)
  | 7 => s.emit_bytes (List.replicate 7 NOP)
  | 8 => s.emit_quad_word 0x9090909090909090
  | 9 => s.emit_bytes (List.replicate 9 NOP)
  | 10 => s.emit_bytes (List.replicate 10 NOP)
  | 11 => s.emit_bytes (List.replicate 11 NOP)
  | 12 => s.emit_bytes (List.replicate 12 NOP)
  | 13 => s.emit_bytes (List.replicate 13 NOP)
  | 14 => s.emit_bytes (List.replicate 14 NOP)
  | 15 => s.emit_bytes (List.replicate 15 NOP)
  | 16 => s.emit_double_quad_word 0x90909090909090909090909090909090
  | 17 => s.emit_bytes (List.replicate 17 NOP)
  | 18 => s.emit_bytes (List.replicate 18 NOP)
  | 19 => s.emit_bytes (List.replicate 19 NOP)
  | 20 => s.emit_bytes (List.replicate 20 NOP)
  | 21 => s.emit_bytes (List.replicate 21 NOP)
  | 22 => s.emit_bytes (List.replicate 22 NOP)
  | 23 => s.emit_bytes (List.replicate 23 NOP)
  | 24 => s.emit_bytes (List.replicate 24 NOP)
  | 25 => s.emit_bytes (List.replicate 25 NOP)
  | 26 => s.emit_bytes (List.replicate 26 NOP)
  | 27 => s.emit_bytes (List.replicate 27 NOP)
  | 28 => s.emit_bytes (List.replicate 28 NOP)
  | 29 => s.emit_bytes (List.replicate 29 NOP)
  | 30 => s.emit_bytes (List.replicate 30 NOP)
  | 31 => s.emit_bytes (List.replicate 31 NOP)
  | 32 => s.emit_bytes (List.replicate 32 NOP)
  | 33 => s.emit_bytes (List.replicate 33 NOP)
  | 34 => s.emit_bytes (List.replicate 34 NOP)
  | 35 => s.emit_bytes (List.replicate 35 NOP)
  | 36 => s.emit_bytes (List.replicate 36 NOP)
  | 37 => s.emit_bytes (List.replicate 37 NOP)
  | 38 => s.emit_bytes (List.replicate 38 NOP)
  | 39 => s.emit_bytes (List.replicate 39 NOP)
  | 40 => s.emit_bytes (List.replicate 40 NOP)
  | 41 => s.emit_bytes (List.replicate 41 NOP)
  | 42 => s.emit_bytes (List.replicate 42 NOP)
  | 43 => s.emit_bytes (List.replicate 43 NOP)
  | 44 => s.emit_bytes (List.replicate 44 NOP)
  | 45 => s.emit_bytes (List.replicate 45 NOP)
  | 46 => s.emit_bytes (List.replicate 46 NOP)
  | 47 => s.emit_bytes (List.replicate 47 NOP)
  | 48 => s.emit_bytes (List.replicate 48 NOP)
  | 49 => s.emit_bytes (List.replicate 49 NOP)
  | 50 => s.emit_bytes (List.replicate 50 NOP)
  | 51 => s.emit_bytes (List.replicate 51 NOP)
  | 52 => s.emit_bytes (List.replicate 52 NOP)
  | 53 => s.emit_bytes (List.replicate 53 NOP)
  | 54 => s.emit_bytes (List.replicate 54 NOP)
  | 55 => s.emit_bytes (List.replicate 55 NOP)
  | 56 => s.emit_bytes (List.replicate 56 NOP)
  | 57 => s.emit_bytes (List.replicate 57 NOP)
  | 58 => s.emit_bytes (List.replicate 58 NOP)
  | 59 => s.emit_bytes (List.replicate 59 NOP)
  | 60 => s.emit_bytes (List.replicate 60 NOP)
  | 61 => s.emit_bytes (List.replicate 61 NOP)
  | 62 => s.emit_bytes (List.replicate 62 NOP)
  | 63 => s.emit_bytes (List.replicate 63 NOP)
  | _ => s.emitNopLoop (alignment - offset)

end InstructionStream

end Assembler

namespace Assembler

namespace InstructionStream

/-- `REX.W` prefix (`InstructionStream::REX_W`). -/
def REX_W : Nat := 0x48

/-- `REX.R` prefix (`InstructionStream::REX_R`). -/
def REX_R : Nat := 0x44

/-- `REX.X` prefix (`InstructionStream::REX_X`). -/
def REX_X : Nat := 0x42

/-- `REX.B` prefix (`InstructionStream::REX_B`). -/
def REX_B : Nat := 0x41

/-- `REX` prefix (`InstructionStream::REX`). -/
def REX : Nat := 0x40

end InstructionStream

/-- A register operand, from the mk2 `Register` trait: a numeric index plus
the trait-level constant `IsRegister8Bit` (true only for the 8-bit GPR
bank).  Rust's `index()` returns a `u8`. -/
structure Register where
  IsRegister8Bit : Bool
  index : Nat
  deriving DecidableEq, Repr

namespace Register

/-- `Register::requires_rex_byte()` (mk2 `Register.rs` lines 14–18):
`Self::IsRegister8Bit && self.index() > 3` — an 8-bit GPR with index > 3
(SPL/BPL/SIL/DIL) forces a REX byte. -/
def requires_rex_byte (r : Register) : Bool :=
  r.IsRegister8Bit && decide (3 < r.index)

/-- `Register::requires_rex_bit()` (mk2 `Register.rs` lines 20–24):
`self.index() > 7`. -/
def requires_rex_bit (r : Register) : Bool :=
  decide (7 < r.index)

/-- `MemoryOrRegister::emit_mod_rm_sib` for a register operand (mk2
`Register.rs` lines 29–37): emit the single byte
`(0b11 << 6) | ((reg.index() << 3) & 0b00111000) | (rm.index() & 0x07)`.
The `% 256` records the wrap of the Rust `u8` shift `reg.index() << 3`. -/
def emit_mod_rm_sib (rm : Register) (byte_emitter : ByteEmitter) (reg : Register) :
    ByteEmitter :=
  let ModRegisterAddressingMode : Nat := 0b11
  let mod_rm_and_sib :=
    (ModRegisterAddressingMode <<< 6) ||| (((reg.index <<< 3) % 256) &&& 0b00111000) |||
      (rm.index &&& 0x07)
  byte_emitter.emit_u8 mod_rm_and_sib

/-- `MemoryOrRegister::emit_rex_2` for a register operand (mk2 `Register.rs`
lines 63–87): the receiver is the `rm` operand; OR `REX` (0x40) into `byte`
if the operand is a forcing 8-bit GPR, OR `REX_B` (0x41) if its index ≥ 8,
then `emit_u8_if_not_zero`. -/
def emit_rex_2 (rm : Register) (byte_emitter : ByteEmitter) (byte : Nat) : ByteEmitter :=
  let byte := byte ||| (if rm.requires_rex_byte then InstructionStream.REX else 0x00)
  let byte := byte ||| (if rm.requires_rex_bit then InstructionStream.REX_B else 0x00)
  byte_emitter.emit_u8_if_not_zero byte

end Register

namespace ByteEmitter

/-- Modelled from the spec: `ByteEmitter::emit_2_byte_vex_prefix` is not
under the disclosed sources.  §4.3.6 / Intel SDM figure 2-9: the 2-byte VEX
form is `0xC5` followed by `R̄ | v̄vvv<<3 | L<<2 | pp`, with `vvvv` the
1's-complement of the register index (4 bits); the first argument is the
pre-shifted inverted-R bit (`vex_5` passes `0x80`, i.e. `R = 0`). -/
def emit_2_byte_vex_prefix (e : ByteEmitter) (not_r : Nat) (vvvv : Register)
    (L pp : Nat) : ByteEmitter :=
  (e.emit_u8 0xC5).emit_u8
    (not_r ||| ((15 - vvvv.index % 16) <<< 3) ||| (L <<< 2) ||| pp)

/-- Modelled from the spec: `ByteEmitter::emit_3_byte_vex_prefix` is not
under the disclosed sources.  §4.3.6 / Intel SDM figure 2-9: the 3-byte VEX
form is `0xC4`, then `R̄ | X̄ | B̄ | mmmmm`, then
`W<<7 | v̄vvv<<3 | L<<2 | pp`; the first three arguments are the pre-shifted
inverted R/X/B bits (`vex_5` passes `0x80, 0x40, 0x20`, i.e. R = X = B = 0). -/
def emit_3_byte_vex_prefix (e : ByteEmitter) (not_r not_x not_b mmmmm w : Nat)
    (vvvv : Register) (L pp : Nat) : ByteEmitter :=
  ((e.emit_u8 0xC4).emit_u8 (not_r ||| not_x ||| not_b ||| mmmmm)).emit_u8
    ((w <<< 7) ||| ((15 - vvvv.index % 16) <<< 3) ||| (L <<< 2) ||| pp)

end ByteEmitter

namespace InstructionStream

/-- `InstructionStream::vex_5` (lines 452–463): the VEX prefix emission with
no ModR/M memory operand.  Emit the 2-byte form when
`mmmmm == 0x01 && w == 0`, the 3-byte form otherwise. -/
def vex_5 (s : InstructionStream) (mmmmm L pp w : Nat) (vvvv : Register) :
    InstructionStream :=
  if mmmmm = 0x01 ∧ w = 0 then
    { s with byte_emitter :=
        ByteEmitter.emit_2_byte_vex_prefix s.byte_emitter 0x80 vvvv L pp }
  else
    { s with byte_emitter :=
        ByteEmitter.emit_3_byte_vex_prefix s.byte_emitter 0x80 0x40 0x20 mmmmm w vvvv L pp }

end InstructionStream

/-- Modelled from the spec: `SegmentRegister.rs` is not under the disclosed
sources; a segment register is one of the six x86 segment registers. -/
inductive SegmentRegister where
  | es
  | cs
  | ss
  | ds
  | fs
  | gs
  deriving DecidableEq, Repr

/-- Modelled from the spec: `Immediate64Bit.rs` is not under the disclosed
sources.  §3: immediates carry signed values; `Immediate64Bit` wraps an
`i64`, embedded as a mathematical integer. -/
structure Immediate64Bit where
  value : Int
  deriving DecidableEq, Repr

/-- Modelled from the spec: the `AsDisplacement` impl of `Immediate64Bit`
(type `D = u64`) is not under the disclosed sources; the displacement is the
immediate's value reinterpreted as a `u64`. -/
def Immediate64Bit.displacement (i : Immediate64Bit) : Nat :=
  (i.value.emod (2 ^ 64)).toNat

/-- `MemoryOffset32Bit` (`MemoryOffset32Bit.rs` lines 7–16): a 32-bit memory
offset, either `segment:offset` (the segment register is ignored in 64-bit
long mode) or a bare `offset`. -/
inductive MemoryOffset32Bit where
  | SegmentOffsetForm32 (segment_register : SegmentRegister) (immediate : Immediate64Bit)
  | OffsetForm32 (immediate : Immediate64Bit)
  deriving DecidableEq, Repr

namespace MemoryOffset32Bit

/-- `MemoryOffset32Bit::get_segment_register` (lines 211–220). -/
def get_segment_register : MemoryOffset32Bit → Option SegmentRegister
  | SegmentOffsetForm32 segment_register _ => some segment_register
  | OffsetForm32 _ => none

/-- `MemoryOffset32Bit::get_offset` (lines 222–233): the offset immediate of
either form. -/
def get_offset : MemoryOffset32Bit → Immediate64Bit
  | SegmentOffsetForm32 _ immediate => immediate
  | OffsetForm32 immediate => immediate

/-- `AsDisplacement for MemoryOffset32Bit` (lines 27–36):
`self.get_offset().displacement()`. -/
def displacement (m : MemoryOffset32Bit) : Nat :=
  m.get_offset.displacement

end MemoryOffset32Bit

end Assembler

namespace Assembler

open InstructionStream

/-- Helper for C5: if the 8-bit pending queue contains a patch whose label
is unbound, draining it in a debug build panics (with some panic: either the
unresolved-label assertion, or an earlier entry trips an assertion first). -/
theorem finishProcess8_errors_of_unbound (locs : LabelledLocations) (l : Label)
    (site : InstructionPointer)
    (hl : locs.potential_target_instruction_pointer l = none) :
    ∀ (q : List (Label × InstructionPointer)) (e : ByteEmitter), (l, site) ∈ q →
      ∃ p, finishProcess8 locs q e = .error p := by
  intro q
  induction q with
  | nil => intro e h; cases h
  | cons head rest ih =>
    intro e hmem
    obtain ⟨l', site'⟩ := head
    unfold finishProcess8
    cases hlook : locs.potential_target_instruction_pointer l' with
    | none => exact ⟨.unresolvedLabel l', rfl⟩
    | some target =>
      cases hins : e.insert_8_bit_effective_address_displacement site' target with
      | ok e' =>
        refine ⟨.eightBitJmpNotErr l', ?_⟩
        simp only [hins]
      | error u =>
        obtain ⟨⟩ := u
        have hmem' : (l, site) ∈ rest := by
          rcases List.mem_cons.mp hmem with heq | h
          · exfalso
            have h1 : l = l' := congrArg Prod.fst heq
            rw [← h1] at hlook
            rw [hlook] at hl
            cases hl
          · exact h
        obtain ⟨p, hp⟩ := ih e hmem'
        refine ⟨p, ?_⟩
        simp only [hins]
        exact hp

/-- Helper for C5: the same for the 32-bit pending queue. -/
theorem finishProcess32_errors_of_unbound (locs : LabelledLocations) (l : Label)
    (site : InstructionPointer)
    (hl : locs.potential_target_instruction_pointer l = none) :
    ∀ (q : List (Label × InstructionPointer)) (e : ByteEmitter), (l, site) ∈ q →
      ∃ p, finishProcess32 locs q e = .error p := by
  intro q
  induction q with
  | nil => intro e h; cases h
  | cons head rest ih =>
    intro e hmem
    obtain ⟨l', site'⟩ := head
    unfold finishProcess32
    cases hlook : locs.potential_target_instruction_pointer l' with
    | none => exact ⟨.unresolvedLabel l', rfl⟩
    | some target =>
      cases hins : e.insert_32_bit_effective_address_displacement site' target with
      | error u =>
        obtain ⟨⟩ := u
        refine ⟨.thirtyTwoBitDisplacementTooFar l', ?_⟩
        simp only [hins]
      | ok e' =>
        have hmem' : (l, site) ∈ rest := by
          rcases List.mem_cons.mp hmem with heq | h
          · exfalso
            have h1 : l = l' := congrArg Prod.fst heq
            rw [← h1] at hlook
            rw [hlook] at hl
            cases hl
          · exact h
        obtain ⟨p, hp⟩ := ih e' hmem'
        refine ⟨p, ?_⟩
        simp only [hins]
        exact hp

/-- C1: the claim says that an 8-bit pending patch whose label is bound but
whose displacement does not fit in 8 bits makes `finish()` panic in debug
builds.  The code does the opposite: `debug_assert!(result.is_err(), "8-bit
JMP ... was too far")` is inverted, so the overflowed patch passes the
assertion and `finish()` completes without a panic (leaving the slot
unpatched).  Concretely: one queued 8-bit patch at site 0 to a label bound
at 300 has displacement 299, far outside `[-128, 127]`, yet `finish` in a
debug build returns normally with the byte stream untouched. -/
theorem c1_finish_accepts_overflowed_8bit_patch :
    (127 : Int) < (300 : Int) - ((0 : Int) + 1) ∧
    finishDebug ⟨⟨[0x90, 0x90], 0⟩, [(0, 300)], [(0, 0)], []⟩
      = .ok ⟨[0x90, 0x90], 0⟩ :=
  ⟨by decide, rfl⟩

/-- C2: emitting an 8-bit branch (short `JMP`) to a label that is already
bound, when the resolved displacement lies outside the signed 8-bit range,
returns the short-overflow error and leaves the cursor at exactly its value
before the emission attempt began: the byte stream, the labelled locations
and both pending queues are unchanged (only the scratch bookmark holds the
pre-emission cursor). -/
theorem c2_short_jmp_rollback (s : InstructionStream) (label : Label)
    (target : InstructionPointer)
    (hbound : s.labelled_locations.potential_target_instruction_pointer label = some target)
    (hfar : (target : Int) - ((s.instruction_pointer : Int) + 2) < -128 ∨
      127 < (target : Int) - ((s.instruction_pointer : Int) + 2)) :
    s.jmp_Label_1 label
      = (.shortOverflow, { s with byte_emitter :=
          { s.byte_emitter with bookmark := s.instruction_pointer } }) := by
  unfold InstructionStream.jmp_Label_1 InstructionStream.bookmark InstructionStream.opcode_1
    InstructionStream.displacement_label_8bit
  simp only [ByteEmitter.store_bookmark, ByteEmitter.emit_u8]
  rw [hbound]
  simp only [ByteEmitter.insert_8_bit_effective_address_displacement,
    ByteEmitter.instruction_pointer, List.length_append, List.length_cons, List.length_nil]
  rw [if_pos]
  · simp only [ByteEmitter.reset_to_bookmark, List.take_left]
    rfl
  · rcases hfar with h | h
    · left
      have : s.instruction_pointer = s.byte_emitter.bytes.length := rfl
      rw [this] at h
      push_cast
      omega
    · right
      have : s.instruction_pointer = s.byte_emitter.bytes.length := rfl
      rw [this] at h
      push_cast
      omega

/-- C2 witness: a stream with empty byte stream and label 0 bound at 200
(displacement 198 > 127): the short jump reports the overflow and the state
is rolled back (cursor 0, stream empty, queues unchanged). -/
theorem c2_short_jmp_rollback_witness :
    InstructionStream.jmp_Label_1 ⟨⟨[], 5⟩, [(0, 200)], [], []⟩ 0
      = (.shortOverflow, ⟨⟨[], 0⟩, [(0, 200)], [], []⟩) :=
  c2_short_jmp_rollback ⟨⟨[], 5⟩, [(0, 200)], [], []⟩ 0 200 rfl (Or.inr (by decide))

/-- C3: the claim says `emit_alignment(a)` pads with `NOP`s until the cursor
is a multiple of `a`.  The code computes `offset = cursor % alignment` and,
for `offset` in `1 ..= 63`, emits `offset` `NOP` bytes instead of the
`alignment - offset` bytes needed (only the default arm is correct), so the
cursor afterwards need not be a multiple of `a`.  Concretely: with the
cursor at 1, `emit_alignment(4)` emits a single `NOP` and leaves the cursor
at 2, which is not a multiple of 4 (contradicting the function's own doc
comment "to ensure the desired alignment"). -/
theorem c3_emit_alignment_leaves_cursor_misaligned :
    (emit_alignment ⟨⟨[0xC3], 0⟩, [], [], []⟩ 4).byte_emitter.bytes = [0xC3, 0x90] ∧
    ¬(emit_alignment ⟨⟨[0xC3], 0⟩, [], [], []⟩ 4).instruction_pointer % 4 = 0 :=
  ⟨rfl, by decide⟩

/-- C4: the claim says a second `emit_alignment(a)` right after a first one
is a no-op.  Because the arms for remainders `1 ..= 63` emit the wrong
count (see C3), the first call can leave the cursor misaligned, and the
second call then emits further bytes: with the cursor at 1,
`emit_alignment(4)` moves the cursor to 2, and a second `emit_alignment(4)`
emits two more `NOP`s, moving it to 4 — not a no-op. -/
theorem c4_emit_alignment_not_idempotent :
    (emit_alignment ⟨⟨[0xC3], 0⟩, [], [], []⟩ 4).byte_emitter.bytes = [0xC3, 0x90] ∧
    (emit_alignment (emit_alignment ⟨⟨[0xC3], 0⟩, [], [], []⟩ 4) 4).byte_emitter.bytes
      = [0xC3, 0x90, 0x90, 0x90] ∧
    emit_alignment (emit_alignment ⟨⟨[0xC3], 0⟩, [], [], []⟩ 4) 4
      ≠ emit_alignment ⟨⟨[0xC3], 0⟩, [], [], []⟩ 4 :=
  ⟨rfl, rfl, by decide⟩

/-- C5: if a label referenced by a pending 8-bit or 32-bit patch is never
attached, `finish()` in a debug build panics; and when that patch is the
first one processed (head of the 8-bit queue, or head of the 32-bit queue
with the 8-bit queue empty), the panic is the unresolved-label assertion
reporting that label's id.  (An earlier pending entry may trip a different
assertion first — notably the inverted 8-bit assertion of C1 — but a panic
always occurs.) -/
theorem c5_finish_panics_on_unresolved_label (s : InstructionStream) (l : Label)
    (site : InstructionPointer)
    (hunbound : s.labelled_locations.potential_target_instruction_pointer l = none)
    (hmem : (l, site) ∈ s.pending8 ∨ (l, site) ∈ s.pending32) :
    (∃ p, finishDebug s = .error p) ∧
    (∀ rest, s.pending8 = (l, site) :: rest → finishDebug s = .error (.unresolvedLabel l)) ∧
    (∀ rest, s.pending8 = [] → s.pending32 = (l, site) :: rest →
      finishDebug s = .error (.unresolvedLabel l)) := by
  refine ⟨?_, ?_, ?_⟩
  · unfold finishDebug
    rcases hmem with h8 | h32
    · obtain ⟨p, hp⟩ := finishProcess8_errors_of_unbound _ _ _ hunbound _ s.byte_emitter h8
      refine ⟨p, ?_⟩
      simp only [hp]
    · cases hq8 : finishProcess8 s.labelled_locations s.pending8 s.byte_emitter with
      | error p =>
        refine ⟨p, ?_⟩
        simp only [hq8]
      | ok e =>
        obtain ⟨p, hp⟩ := finishProcess32_errors_of_unbound _ _ _ hunbound _ e h32
        refine ⟨p, ?_⟩
        simp only [hq8]
        exact hp
  · intro rest hq8
    unfold finishDebug
    rw [hq8]
    unfold finishProcess8
    simp only [hunbound]
  · intro rest hq8empty hq32
    unfold finishDebug
    rw [hq8empty, hq32]
    show finishProcess32 s.labelled_locations ((l, site) :: rest) s.byte_emitter
      = .error (.unresolvedLabel l)
    unfold finishProcess32
    simp only [hunbound]

/-- C5 witness: a stream whose 8-bit queue holds one patch for label 5,
never attached: `finish` in a debug build panics reporting label 5. -/
theorem c5_finish_panics_on_unresolved_label_witness :
    finishDebug ⟨⟨[], 0⟩, [], [(5, 0)], []⟩ = .error (.unresolvedLabel 5) :=
  (c5_finish_panics_on_unresolved_label ⟨⟨[], 0⟩, [], [(5, 0)], []⟩ 5 0 rfl
    (Or.inl (by decide))).2.1 [] rfl

/-- C6: emitting an 8-bit branch displacement to a label that is not yet
bound succeeds, appends `(label, site)` with `site` the cursor at the time
of the call to the 8-bit pending queue, and advances the cursor by exactly
one reserved byte, leaving the previously emitted bytes and the other state
unchanged. -/
theorem c6_unbound_8bit_reserves_and_queues (s : InstructionStream) (label : Label)
    (hunbound : s.labelled_locations.potential_target_instruction_pointer label = none) :
    (s.displacement_label_8bit label).1 = .ok ∧
    (s.displacement_label_8bit label).2.pending8
      = s.pending8 ++ [(label, s.instruction_pointer)] ∧
    (s.displacement_label_8bit label).2.instruction_pointer = s.instruction_pointer + 1 ∧
    (s.displacement_label_8bit label).2.byte_emitter.bytes.take s.instruction_pointer
      = s.byte_emitter.bytes ∧
    (s.displacement_label_8bit label).2.pending32 = s.pending32 ∧
    (s.displacement_label_8bit label).2.labelled_locations = s.labelled_locations := by
  unfold InstructionStream.displacement_label_8bit
  rw [hunbound]
  refine ⟨rfl, rfl, ?_, ?_, rfl, rfl⟩
  · simp [ByteEmitter.skip_u8, InstructionStream.instruction_pointer,
      ByteEmitter.instruction_pointer]
  · show (s.byte_emitter.bytes ++ [0]).take s.byte_emitter.bytes.length = s.byte_emitter.bytes
    exact List.take_left _ _

/-- C6 witness: at cursor 1 (one opcode byte emitted), a displacement to the
unbound label 3 is queued as `(3, 1)`, the cursor moves to 2, and the
opcode byte is untouched. -/
theorem c6_unbound_8bit_reserves_and_queues_witness :
    (InstructionStream.displacement_label_8bit ⟨⟨[0xEB], 0⟩, [], [], []⟩ 3).1 = .ok ∧
    (InstructionStream.displacement_label_8bit ⟨⟨[0xEB], 0⟩, [], [], []⟩ 3).2.pending8
      = [(3, 1)] ∧
    (InstructionStream.displacement_label_8bit
        ⟨⟨[0xEB], 0⟩, [], [], []⟩ 3).2.instruction_pointer = 2 ∧
    (InstructionStream.displacement_label_8bit
        ⟨⟨[0xEB], 0⟩, [], [], []⟩ 3).2.byte_emitter.bytes.take 1 = [0xEB] ∧
    (InstructionStream.displacement_label_8bit ⟨⟨[0xEB], 0⟩, [], [], []⟩ 3).2.pending32 = [] ∧
    (InstructionStream.displacement_label_8bit
        ⟨⟨[0xEB], 0⟩, [], [], []⟩ 3).2.labelled_locations = [] :=
  c6_unbound_8bit_reserves_and_queues ⟨⟨[0xEB], 0⟩, [], [], []⟩ 3 rfl

/-- C7: for a register-only operand and a base byte that is `0x00` or the
`REX.W` constant `0x48` (the two bases the generated mnemonic methods pass
to `rex_2`), a REX byte is emitted if and only if `REX.W` is required, the
operand is an 8-bit GPR with index > 3 (SPL/BPL/SIL/DIL), or the operand
needs the `REX.B` extension bit; an emitted byte always lies in
`0x40 ..= 0x4F`; with no forcing, no extension bit and no `REX.W` nothing is
emitted at all; and a bare `0x40` can only arise from the 8-bit-GPR
forcing — without it the emitted byte (if any) differs from `0x40`. -/
theorem c7_rex_emission (rm : Register) (b : Nat) (e : ByteEmitter)
    (hb : b = 0x00 ∨ b = InstructionStream.REX_W) :
    ((∃ v, (rm.emit_rex_2 e b).bytes = e.bytes ++ [v] ∧ 0x40 ≤ v ∧ v ≤ 0x4F) ↔
      (b = InstructionStream.REX_W ∨ rm.requires_rex_byte = true ∨ rm.requires_rex_bit = true)) ∧
    ((b = 0x00 ∧ rm.requires_rex_byte = false ∧ rm.requires_rex_bit = false) →
      (rm.emit_rex_2 e b).bytes = e.bytes) ∧
    (rm.requires_rex_byte = false →
      (rm.emit_rex_2 e b).bytes = e.bytes ∨
        ∃ v, (rm.emit_rex_2 e b).bytes = e.bytes ++ [v] ∧ v ≠ 0x40) := by
  cases hby : rm.requires_rex_byte <;> cases hbit : rm.requires_rex_bit <;>
    rcases hb with hb | hb <;> subst hb <;>
    simp [Register.emit_rex_2, hby, hbit, ByteEmitter.emit_u8_if_not_zero,
      ByteEmitter.emit_u8, InstructionStream.REX, InstructionStream.REX_B,
      InstructionStream.REX_W]

/-- C7 witness: `SPL` (8-bit GPR, index 4) with base byte `0x00`: a REX byte
in `0x40 ..= 0x4F` is emitted even though every extension bit is zero. -/
theorem c7_rex_emission_witness :
    ∃ v, ((⟨true, 4⟩ : Register).emit_rex_2 ⟨[], 0⟩ 0x00).bytes = [v] ∧
      0x40 ≤ v ∧ v ≤ 0x4F :=
  ((c7_rex_emission ⟨true, 4⟩ 0x00 ⟨[], 0⟩ (Or.inl rfl)).1).mpr (Or.inr (Or.inl (by decide)))

/-- C8: `vex_5` (the VEX prefix emission with no ModR/M memory operand,
where X = B = 0 implicitly) emits the 2-byte VEX form, leading byte `0xC5`,
exactly when `mmmmm = 0x01` and `W = 0`; otherwise it emits the 3-byte
form, leading byte `0xC4`. -/
theorem c8_vex5_form_selection (s : InstructionStream) (mmmmm L pp w : Nat)
    (vvvv : Register) :
    ((mmmmm = 0x01 ∧ w = 0) →
      ∃ b2, (s.vex_5 mmmmm L pp w vvvv).byte_emitter.bytes
        = s.byte_emitter.bytes ++ [0xC5, b2]) ∧
    (¬(mmmmm = 0x01 ∧ w = 0) →
      ∃ b2 b3, (s.vex_5 mmmmm L pp w vvvv).byte_emitter.bytes
        = s.byte_emitter.bytes ++ [0xC4, b2, b3]) := by
  constructor
  · intro h
    refine ⟨(0x80 ||| ((15 - vvvv.index % 16) <<< 3) ||| (L <<< 2) ||| pp) % 256, ?_⟩
    simp [InstructionStream.vex_5, if_pos h, ByteEmitter.emit_2_byte_vex_prefix,
      ByteEmitter.emit_u8]
  · intro h
    refine ⟨(0x80 ||| 0x40 ||| 0x20 ||| mmmmm) % 256,
      ((w <<< 7) ||| ((15 - vvvv.index % 16) <<< 3) ||| (L <<< 2) ||| pp) % 256, ?_⟩
    simp [InstructionStream.vex_5, if_neg h, ByteEmitter.emit_3_byte_vex_prefix,
      ByteEmitter.emit_u8]

/-- C8 witness: with `mmmmm = 1`, `W = 0` (an `0F`-map, `VEX.W0` form) the
emitted prefix starts with `0xC5` — the 2-byte form. -/
theorem c8_vex5_form_selection_witness :
    ∃ b2, (InstructionStream.vex_5 ⟨⟨[], 0⟩, [], [], []⟩ 0x01 1 0 0
      ⟨false, 1⟩).byte_emitter.bytes = [0xC5, b2] :=
  (c8_vex5_form_selection ⟨⟨[], 0⟩, [], [], []⟩ 0x01 1 0 0 ⟨false, 1⟩).1 ⟨rfl, rfl⟩

/-- C9: in the register-direct form, exactly one ModR/M byte is emitted,
equal to `mod = 0b11` in the top two bits, the `reg` operand's index mod 8
in bits 5..3, and the `rm` operand's index mod 8 in bits 2..0. -/
theorem c9_mod_rm_register_direct (rm reg : Register) (e : ByteEmitter) :
    (rm.emit_mod_rm_sib e reg).bytes
      = e.bytes ++ [0b11 * 2 ^ 6 + reg.index % 8 * 2 ^ 3 + rm.index % 8] := by
  have h1 : ((reg.index <<< 3) % 256) &&& 0b00111000 = reg.index % 8 * 8 := by
    rw [Nat.shiftLeft_eq, show (2 : Nat) ^ 3 = 8 from rfl, show (256 : Nat) = 32 * 8 from rfl,
      Nat.mul_mod_mul_right]
    have hk : reg.index % 32 < 32 := Nat.mod_lt _ (by norm_num)
    rw [(by decide : ∀ k, k < 32 → (k * 8) &&& 56 = (k % 8) * 8) _ hk,
      Nat.mod_mod_of_dvd _ (by norm_num)]
  have h2 : rm.index &&& 0x07 = rm.index % 8 := Nat.and_pow_two_sub_one_eq_mod rm.index 3
  have hk : reg.index % 8 < 8 := Nat.mod_lt _ (by norm_num)
  have hm : rm.index % 8 < 8 := Nat.mod_lt _ (by norm_num)
  have h3 := (by decide : ∀ k, k < 8 → ∀ m, m < 8 → ((192 ||| (k * 8)) ||| m) = 192 + k * 8 + m)
    _ hk _ hm
  simp only [Register.emit_mod_rm_sib, ByteEmitter.emit_u8, h1, h2]
  rw [show (0b11 : Nat) <<< 6 = 192 from rfl, h3, Nat.mod_eq_of_lt (by omega)]
  norm_num

/-- C10: the displacement of a 32-bit memory offset depends only on its
offset immediate, never on the segment register it carries: the
`segment:offset` form and the bare `offset` form with the same immediate
have equal displacements. -/
theorem c10_segment_register_ignored_in_displacement (seg : SegmentRegister)
    (imm : Immediate64Bit) :
    (MemoryOffset32Bit.SegmentOffsetForm32 seg imm).displacement
      = (MemoryOffset32Bit.OffsetForm32 imm).displacement := rfl

end Assembler
